import Mathlib

/-
  Verification development for the web-scraper service.

  The embedding models, from the source:
  - the usage counter (nested JS objects, logScrape) as association lists;
  - the content extractors (extractReadableContent, extractEnhancedArticle,
    getPageSource) over an abstract page model whose readability result and
    meta tags are data;
  - the POST /scrape request handler as a pure function over an environment
    describing the outcome of each external effect;
  - the browser session manager (getBrowser with its shared browserPromise)
    as a labelled small-step state machine over the event-loop interleavings
    of concurrent callers.
-/

set_option autoImplicit false

namespace WebScraper

/-! ## Association lists modelling JavaScript object property access -/

/-- Lookup of a property on a JS object: the value at the first matching key. -/
def alookup {α : Type} : List (String × α) → String → Option α
  | [], _ => none
  | (k, v) :: t, key => if k = key then some v else alookup t key

/-- Assignment of a property on a JS object: replace the value in place if the
key exists, otherwise append the new key at the end. -/
def aset {α : Type} : List (String × α) → String → α → List (String × α)
  | [], key, v => [(key, v)]
  | (k, w) :: t, key, v => if k = key then (key, v) :: t else (k, w) :: aset t key v

@[simp]
theorem alookup_aset_self {α : Type} (l : List (String × α)) (k : String) (v : α) :
    alookup (aset l k v) k = some v := by
  induction l with
  | nil => simp [alookup, aset]
  | cons hd t ih =>
    obtain ⟨k0, w⟩ := hd
    by_cases h : k0 = k <;> simp [alookup, aset, h, ih]

@[simp]
theorem alookup_aset_ne {α : Type} (l : List (String × α)) (k k' : String) (v : α)
    (h : k ≠ k') : alookup (aset l k v) k' = alookup l k' := by
  induction l with
  | nil => simp [alookup, aset, h]
  | cons hd t ih =>
    obtain ⟨k0, w⟩ := hd
    by_cases h0 : k0 = k
    · subst h0; simp [alookup, aset, h]
    · by_cases h1 : k0 = k' <;> simp [alookup, aset, h0, h1, ih, Ne.symm h]

/-! ## Usage counter (ScrapeStats, logScrape) -/

/-- Innermost level of the stats object: mode string to count. -/
abbrev ModeCounts := List (String × Nat)

/-- Middle level: url string to mode counts. -/
abbrev UrlCounts := List (String × ModeCounts)

/-- ScrapeStats: month string to url counts, as in the source interface. -/
abbrev ScrapeStats := List (String × UrlCounts)

/-- JS falsiness of an optional count: undefined and 0 are falsy. -/
def countFalsy : Option Nat → Bool
  | none => true
  | some n => n = 0

/-- The innermost statements of logScrape: create the count when it is falsy
(undefined or 0), then increment it. -/
def bumpMode (modes : ModeCounts) (mode : String) : ModeCounts :=
  let modes1 := if countFalsy (alookup modes mode) then aset modes mode 0 else modes
  aset modes1 mode ((alookup modes1 mode).getD 0 + 1)

/-- The url-level statements of logScrape: create the url entry when missing,
then update its mode counts. -/
def bumpUrl (urls : UrlCounts) (url mode : String) : UrlCounts :=
  let urls1 := if (alookup urls url).isSome then urls else aset urls url []
  aset urls1 url (bumpMode ((alookup urls1 url).getD []) mode)

/-- Embedding of logScrape from the source: create the month, url and mode
levels when missing, then increment the count for the triple.  The
saveStats call is persistence, modelled in the handler environment. -/
def logScrape (stats : ScrapeStats) (month url mode : String) : ScrapeStats :=
  let stats1 := if (alookup stats month).isSome then stats else aset stats month []
  aset stats1 month (bumpUrl ((alookup stats1 month).getD []) url mode)

/-- The count stored for a month/url/mode triple, 0 when any level is absent. -/
def statCount (stats : ScrapeStats) (month url mode : String) : Nat :=
  (alookup ((alookup ((alookup stats month).getD []) url).getD []) mode).getD 0

/-- N successive scrapes of the same month/url/mode recorded on the counter. -/
def logScrapeN (n : Nat) (stats : ScrapeStats) (month url mode : String) : ScrapeStats :=
  match n with
  | 0 => stats
  | n + 1 => logScrape (logScrapeN n stats month url mode) month url mode

theorem alookup_ensure {α : Type} (l : List (String × α)) (k : String) (d : α) :
    alookup (if (alookup l k).isSome then l else aset l k d) k =
      some ((alookup l k).getD d) := by
  cases h : alookup l k with
  | none => simp [h]
  | some v => simp [h]

theorem alookup_ensure_ne {α : Type} (l : List (String × α)) (k k' : String) (d : α)
    (hne : k ≠ k') :
    alookup (if (alookup l k).isSome then l else aset l k d) k' = alookup l k' := by
  cases h : alookup l k with
  | none => simp [h, alookup_aset_ne _ _ _ _ hne]
  | some v => simp [h]

theorem alookup_bumpMode_self (modes : ModeCounts) (mode : String) :
    alookup (bumpMode modes mode) mode = some ((alookup modes mode).getD 0 + 1) := by
  unfold bumpMode
  by_cases hc : countFalsy (alookup modes mode)
  · have h0 : (alookup modes mode).getD 0 = 0 := by
      cases h : alookup modes mode with
      | none => simp
      | some n => simp [countFalsy, h] at hc; simp [hc]
    simp [hc, h0]
  · simp [hc]

theorem alookup_bumpMode_ne (modes : ModeCounts) (mode mode' : String)
    (hne : mode ≠ mode') :
    alookup (bumpMode modes mode) mode' = alookup modes mode' := by
  unfold bumpMode
  by_cases hc : countFalsy (alookup modes mode) <;>
    simp [hc, alookup_aset_ne _ _ _ _ hne]

theorem alookup_bumpUrl_self (urls : UrlCounts) (url mode : String) :
    alookup (bumpUrl urls url mode) url =
      some (bumpMode ((alookup urls url).getD []) mode) := by
  unfold bumpUrl
  simp [alookup_ensure]

theorem alookup_bumpUrl_ne (urls : UrlCounts) (url url' mode : String)
    (hne : url ≠ url') :
    alookup (bumpUrl urls url mode) url' = alookup urls url' := by
  unfold bumpUrl
  simp [alookup_aset_ne _ _ _ _ hne, alookup_ensure_ne _ _ _ _ hne]

theorem alookup_logScrape_self (stats : ScrapeStats) (month url mode : String) :
    alookup (logScrape stats month url mode) month =
      some (bumpUrl ((alookup stats month).getD []) url mode) := by
  unfold logScrape
  simp [alookup_ensure]

theorem alookup_logScrape_ne (stats : ScrapeStats) (month month' url mode : String)
    (hne : month ≠ month') :
    alookup (logScrape stats month url mode) month' = alookup stats month' := by
  unfold logScrape
  simp [alookup_aset_ne _ _ _ _ hne, alookup_ensure_ne _ _ _ _ hne]

theorem statCount_logScrape_self (stats : ScrapeStats) (month url mode : String) :
    statCount (logScrape stats month url mode) month url mode =
      statCount stats month url mode + 1 := by
  unfold statCount
  simp [alookup_logScrape_self, alookup_bumpUrl_self, alookup_bumpMode_self]

theorem statCount_logScrape_frame (stats : ScrapeStats) (month url mode : String)
    (month' url' mode' : String) (h : url' ≠ url ∨ mode' ≠ mode) :
    statCount (logScrape stats month' url' mode') month url mode =
      statCount stats month url mode := by
  unfold statCount
  by_cases hmm : month' = month
  · subst hmm
    simp only [alookup_logScrape_self, Option.getD_some]
    by_cases huu : url' = url
    · subst huu
      have hmd : mode' ≠ mode := by tauto
      simp [alookup_bumpUrl_self, alookup_bumpMode_ne _ _ _ hmd]
    · simp [alookup_bumpUrl_ne _ _ _ _ huu]
  · simp [alookup_logScrape_ne _ _ _ _ _ hmm]

/-! ## Content extractors over an abstract page model

The readability/DOM library is external; its result on the page HTML is
modelled as data carried by the page: an optional parsed article (null when
the readability pass finds nothing) and the list of meta tags of the
document.  A meta attribute that is absent is none; JS string falsiness
(null and the empty string) is modelled by truthyStr. -/

/-- Result of the readability parse, as used by the source: title, byline
(possibly null) and plain text content. -/
structure Article where
  title : String
  byline : Option String
  textContent : String
deriving Repr, DecidableEq

/-- One meta element of the document: its name, property and content
attributes (none when the attribute is absent). -/
structure MetaTag where
  name : Option String
  property : Option String
  content : Option String
deriving Repr, DecidableEq

/-- Abstract state of a live, navigated page: its serialized HTML, the
readability parse of that HTML, and its meta tags. -/
structure PageModel where
  html : String
  article : Option Article
  metas : List MetaTag
deriving Repr, DecidableEq

/-- JS truthiness of a nullable string: null and the empty string are falsy. -/
def truthyStr : Option String → Bool
  | none => false
  | some s => !(s = "")

/-- The key under which a meta tag is recorded: getAttribute name, or the
property attribute when the name is falsy (the JS or-chain). -/
def metaName (t : MetaTag) : Option String :=
  if truthyStr t.name then t.name else t.property

/-- The dictionary built by the page.evaluate block of extractEnhancedArticle:
for each meta tag with a truthy name and content, record content under name,
later tags overwriting earlier ones. -/
def buildMetadata (metas : List MetaTag) : List (String × String) :=
  metas.foldl
    (fun data t =>
      if truthyStr (metaName t) && truthyStr t.content then
        aset data ((metaName t).getD "") (t.content.getD "")
      else data)
    []

/-- Embedding of extractReadableContent: the text content of the parsed
article, or the empty string when the readability pass returns null. -/
def extractReadableContent (p : PageModel) : String :=
  match p.article with
  | some article => article.textContent
  | none => ""

/-- The four meta keys the source treats as relevant, in source order. -/
def relevantMetaTags : List String :=
  ["description", "keywords", "author", "publication_date"]

/-- Embedding of extractEnhancedArticle: empty when no article parses;
otherwise the title line, the author line when the byline is truthy, the
content section, then the Metadata header followed by one line per relevant
meta key with a truthy recorded value, in the fixed order of
relevantMetaTags. -/
def extractEnhancedArticle (p : PageModel) : String :=
  match p.article with
  | none => ""
  | some article =>
    let enhanced := "Title: " ++ article.title ++ "\n\n"
    let enhanced :=
      if truthyStr article.byline then
        enhanced ++ "Author: " ++ article.byline.getD "" ++ "\n\n"
      else enhanced
    let enhanced := enhanced ++ "Content:\n" ++ extractReadableContent p
    let metadata := buildMetadata p.metas
    let enhanced := enhanced ++ "\n\nMetadata:"
    relevantMetaTags.foldl
      (fun acc tag =>
        if truthyStr (alookup metadata tag) then
          acc ++ "\n" ++ tag ++ ": " ++ (alookup metadata tag).getD ""
        else acc)
      enhanced

/-- Embedding of getPageSource: the serialized HTML of the page. -/
def getPageSource (p : PageModel) : String :=
  p.html

/-- One metadata line of the article output, for a present tag. -/
def metaLine (metadata : List (String × String)) (tag : String) : String :=
  "\n" ++ tag ++ ": " ++ (alookup metadata tag).getD ""

/-- The article output as the spec describes it, section by section: title
line, author line only if a byline is present, content section, then a
metadata section listing only the tags present on the page, in the priority
order description, keywords, author, publication_date. -/
def specArticleSections (p : PageModel) : Option String :=
  match p.article with
  | none => none
  | some article =>
    let titleSection := "Title: " ++ article.title ++ "\n\n"
    let authorSection :=
      if truthyStr article.byline then
        "Author: " ++ article.byline.getD "" ++ "\n\n"
      else ""
    let contentSection := "Content:\n" ++ extractReadableContent p
    let metadata := buildMetadata p.metas
    let presentTags := relevantMetaTags.filter (fun t => truthyStr (alookup metadata t))
    let metadataSection := "\n\nMetadata:" ++ String.join (presentTags.map (metaLine metadata))
    some (titleSection ++ authorSection ++ contentSection ++ metadataSection)

theorem foldl_append_shift (l : List String) (a b : String) :
    l.foldl (fun r s => r ++ s) (a ++ b) = a ++ l.foldl (fun r s => r ++ s) b := by
  induction l generalizing b with
  | nil => simp
  | cons hd t ih =>
    simp only [List.foldl_cons]
    rw [String.append_assoc, ih]

theorem join_cons (s : String) (l : List String) :
    String.join (s :: l) = s ++ String.join l := by
  show (s :: l).foldl (fun r s => r ++ s) "" = s ++ l.foldl (fun r s => r ++ s) ""
  simp only [List.foldl_cons, String.empty_append]
  calc l.foldl (fun r s => r ++ s) s
      = l.foldl (fun r s => r ++ s) (s ++ "") := by rw [String.append_empty]
    _ = s ++ l.foldl (fun r s => r ++ s) "" := foldl_append_shift l s ""

/-- The foldl that appends the metadata lines equals appending the joined
lines of the present tags, for any initial accumulator and tag list. -/
theorem metaFoldl_eq_append (metadata : List (String × String)) (tags : List String)
    (init : String) :
    tags.foldl
      (fun acc tag =>
        if truthyStr (alookup metadata tag) then
          acc ++ "\n" ++ tag ++ ": " ++ (alookup metadata tag).getD ""
        else acc)
      init =
    init ++ String.join ((tags.filter (fun t => truthyStr (alookup metadata t))).map
      (metaLine metadata)) := by
  induction tags generalizing init with
  | nil => simp [String.join]
  | cons hd t ih =>
    by_cases h : truthyStr (alookup metadata hd)
    · simp only [List.foldl_cons, List.filter_cons, h, if_true, List.map_cons, join_cons]
      rw [ih]
      simp [metaLine, String.append_assoc]
    · simp only [List.foldl_cons, List.filter_cons, h]
      rw [ih]
      simp

theorem append_merge_author (x : String) :
    "\n\n" ++ ("Author: " ++ x) = "\n\nAuthor: " ++ x := by
  rw [← String.append_assoc]
  rfl

theorem append_merge_content (x : String) :
    "\n\n" ++ ("Content:\n" ++ x) = "\n\nContent:\n" ++ x := by
  rw [← String.append_assoc]
  rfl

/-- The article output of the source decomposes exactly into the sections
the spec lists, in the spec order. -/
theorem extractEnhancedArticle_eq_sections (p : PageModel) (a : Article)
    (h : p.article = some a) :
    extractEnhancedArticle p = (specArticleSections p).getD "" := by
  unfold extractEnhancedArticle specArticleSections
  rw [h]
  simp only [metaFoldl_eq_append, Option.getD_some]
  by_cases hb : truthyStr a.byline <;>
    simp [hb, String.append_assoc, append_merge_author, append_merge_content]

/-! ## The POST /scrape request handler

The handler is embedded as a pure function.  External effects that can
succeed or fail independently of the request body (browser launch, page
creation, navigation, the opaque screenshot and print extractions, the
stats-file write) are described by an environment; the page reached after a
successful navigation is the abstract page model. -/

/-- Body of a scrape request: both fields may be absent at runtime. -/
structure ScrapeBody where
  url : Option String
  mode : Option String
deriving Repr, DecidableEq

/-- Body of a reply: either a content payload or an error payload. -/
inductive ReplyBody where
  | content (s : String)
  | error (s : String)
deriving Repr, DecidableEq

/-- An HTTP reply: status code and body. -/
structure Reply where
  code : Nat
  body : ReplyBody
deriving Repr, DecidableEq

/-- Outcomes of the external effects a scrape request performs, plus the
page model and the wall-clock month. -/
structure Env where
  month : String
  page : PageModel
  browserOk : Bool
  newPageOk : Bool
  gotoOk : Bool
  screenshotResult : Except Unit String
  printResult : Except Unit String
  saveOk : Bool

/-- Which effects a run of the handler performed, as recorded along each
control path of the source. -/
structure HandlerTrace where
  getBrowserCalled : Bool
  browserAcquired : Bool
  pageOpened : Bool
  navigationAttempted : Bool
  extractionRun : Bool
  counterMutated : Bool
  pageClosed : Bool
  browserClosed : Bool
deriving Repr, DecidableEq

/-- Result of one run of the handler: the reply, the stats after the run,
and the trace of effects. -/
structure HandlerResult where
  reply : Reply
  stats : ScrapeStats
  trace : HandlerTrace
deriving Repr

/-- JS falsiness of the url field: absent or empty string. -/
def urlFalsy : Option String → Bool
  | none => true
  | some s => s = ""

/-- The property key under which logScrape records the mode: an absent mode
is coerced to the string undefined by JS property indexing. -/
def modeKey : Option String → String
  | some s => s
  | none => "undefined"

/-- The generic 500 reply of the catch block. -/
def scrapeError : Reply :=
  ⟨500, .error "An error occurred while scraping the website"⟩

/-- The switch on mode of the handler, in source case order; the screenshot
and print extractors are opaque external operations whose outcome the
environment provides, the others are the embedded extractors.  The text
case and the default case share the readable-content extractor. -/
def dispatch (env : Env) (mode : Option String) : Except Unit String :=
  match mode with
  | none => Except.ok (extractReadableContent env.page)
  | some s =>
    if s = "screenshot" then env.screenshotResult
    else if s = "source" then Except.ok (getPageSource env.page)
    else if s = "print" then env.printResult
    else if s = "article" then Except.ok (extractEnhancedArticle env.page)
    else Except.ok (extractReadableContent env.page)

/-- Embedding of the POST /scrape handler.  Each branch mirrors one control
path of the source: the 400 validation return, the catch paths for browser
launch, page creation, navigation and extraction failures, the catch path
for a failed stats write after logScrape has mutated the counter, and the
success path.  The finally block closes the page on every path where the
page was opened and never closes the browser. -/
def handleScrape (env : Env) (stats : ScrapeStats) (body : ScrapeBody) : HandlerResult :=
  if urlFalsy body.url then
    { reply := ⟨400, .error "URL is required"⟩
      stats := stats
      trace := ⟨false, false, false, false, false, false, false, false⟩ }
  else if env.browserOk = false then
    { reply := scrapeError
      stats := stats
      trace := ⟨true, false, false, false, false, false, false, false⟩ }
  else if env.newPageOk = false then
    { reply := scrapeError
      stats := stats
      trace := ⟨true, true, false, false, false, false, false, false⟩ }
  else if env.gotoOk = false then
    { reply := scrapeError
      stats := stats
      trace := ⟨true, true, true, true, false, false, true, false⟩ }
  else
    match dispatch env body.mode with
    | .error _ =>
      { reply := scrapeError
        stats := stats
        trace := ⟨true, true, true, true, true, false, true, false⟩ }
    | .ok result =>
      let stats1 := logScrape stats env.month (body.url.getD "") (modeKey body.mode)
      if env.saveOk = false then
        { reply := scrapeError
          stats := stats1
          trace := ⟨true, true, true, true, true, true, true, false⟩ }
      else
        { reply := ⟨200, .content result⟩
          stats := stats1
          trace := ⟨true, true, true, true, true, true, true, false⟩ }

/-! ## Browser session manager (getBrowser) as a small-step state machine

getBrowser runs on a single-threaded event loop; handlers interleave only
at await points.  Its body has two await points that matter: the await of
the chromium-path exec, which sits after the null check of browserPromise
but before its assignment, and the await of the launch promise itself.
The machine records the shared browserPromise cell, the status of every
launch promise ever created (indexed by creation order), and the phase of
each caller.  One caller step is one segment of getBrowser between awaits;
launch settlement is a separate event, and the catch handler attached to
the launch promise (which nulls browserPromise and rethrows) runs at the
moment the launch fails. -/

/-- Status of one launch promise: pending, resolved with a browser, or
rejected. -/
inductive PromiseStatus where
  | pending
  | resolvedBrowser
  | rejected
deriving Repr, DecidableEq

/-- Phase of one caller of getBrowser: not yet entered; suspended on the
chromium-path exec inside the null-check branch; awaiting a launch promise;
returned with a browser; or returned with the launch error. -/
inductive CallerPhase where
  | idle
  | execWait
  | awaiting (p : Nat)
  | gotBrowser
  | gotError
deriving Repr, DecidableEq

/-- State of the session manager: the shared browserPromise cell (an index
into promises, or none), the status of each launch promise created so far,
and the caller phases. -/
structure SessionState where
  browserPromise : Option Nat
  promises : List PromiseStatus
  callers : List CallerPhase
deriving Repr, DecidableEq

/-- Events of the machine: a caller entering getBrowser, a caller resuming
from the chromium-path exec, a launch settling either way, and a caller
resuming from its awaited promise. -/
inductive SessionEv where
  | invoke (c : Nat)
  | execDone (c : Nat)
  | launchOk (p : Nat)
  | launchFail (p : Nat)
  | observe (c : Nat)
deriving Repr, DecidableEq

/-- Small-step relation of getBrowser.  invokeCached: the null check sees a
cached promise and the caller awaits it.  invokeFresh: the null check sees
null and the caller suspends on the chromium-path exec.  execDone: the
caller resumes, calls puppeteer.launch (creating a fresh pending promise),
assigns it to browserPromise and awaits it.  launchOk: a pending launch
resolves.  launchFail: a pending launch rejects and its catch handler nulls
browserPromise.  observeOk and observeErr: a caller awaiting a settled
promise resumes with the browser or with the propagated error. -/
inductive SessionStep : SessionState → SessionEv → SessionState → Prop where
  | invokeCached (s : SessionState) (c p : Nat) :
      s.callers[c]? = some .idle →
      s.browserPromise = some p →
      SessionStep s (.invoke c)
        ⟨s.browserPromise, s.promises, s.callers.set c (.awaiting p)⟩
  | invokeFresh (s : SessionState) (c : Nat) :
      s.callers[c]? = some .idle →
      s.browserPromise = none →
      SessionStep s (.invoke c)
        ⟨s.browserPromise, s.promises, s.callers.set c .execWait⟩
  | execDone (s : SessionState) (c : Nat) :
      s.callers[c]? = some .execWait →
      SessionStep s (.execDone c)
        ⟨some s.promises.length, s.promises ++ [.pending],
          s.callers.set c (.awaiting s.promises.length)⟩
  | launchOk (s : SessionState) (p : Nat) :
      s.promises[p]? = some .pending →
      SessionStep s (.launchOk p)
        ⟨s.browserPromise, s.promises.set p .resolvedBrowser, s.callers⟩
  | launchFail (s : SessionState) (p : Nat) :
      s.promises[p]? = some .pending →
      SessionStep s (.launchFail p)
        ⟨none, s.promises.set p .rejected, s.callers⟩
  | observeOk (s : SessionState) (c p : Nat) :
      s.callers[c]? = some (.awaiting p) →
      s.promises[p]? = some .resolvedBrowser →
      SessionStep s (.observe c)
        ⟨s.browserPromise, s.promises, s.callers.set c .gotBrowser⟩
  | observeErr (s : SessionState) (c p : Nat) :
      s.callers[c]? = some (.awaiting p) →
      s.promises[p]? = some .rejected →
      SessionStep s (.observe c)
        ⟨s.browserPromise, s.promises, s.callers.set c .gotError⟩

/-- Reachability along any interleaving of events. -/
inductive SessionReach : SessionState → SessionState → Prop where
  | refl (s : SessionState) : SessionReach s s
  | tail (s t u : SessionState) (e : SessionEv) :
      SessionReach s t → SessionStep t e u → SessionReach s u

/-- Number of launch attempts currently in flight. -/
def pendingLaunches (s : SessionState) : Nat :=
  s.promises.countP (fun st => st == .pending)

/-- Number of launch attempts ever started. -/
def totalLaunches (s : SessionState) : Nat :=
  s.promises.length

/-- Initial state with two idle callers and no browser session. -/
def sessionInit2 : SessionState :=
  ⟨none, [], [.idle, .idle]⟩

/-- State after both callers passed the null check and suspended on the
chromium-path exec. -/
def sessionBothExec : SessionState :=
  ⟨none, [], [.execWait, .execWait]⟩

/-- State after the first caller resumed and started the first launch. -/
def sessionOneLaunch : SessionState :=
  ⟨some 0, [.pending], [.awaiting 0, .execWait]⟩

/-- State after the second caller also resumed and started a second launch
while the first is still pending. -/
def sessionTwoLaunches : SessionState :=
  ⟨some 1, [.pending, .pending], [.awaiting 0, .awaiting 1]⟩

/-! ## Counting lemmas for iterated scrapes -/

theorem statCount_logScrapeN (n : Nat) (stats : ScrapeStats) (month url mode : String) :
    statCount (logScrapeN n stats month url mode) month url mode =
      statCount stats month url mode + n := by
  induction n with
  | zero => rfl
  | succ k ih =>
    show statCount (logScrape (logScrapeN k stats month url mode) month url mode)
        month url mode = statCount stats month url mode + (k + 1)
    rw [statCount_logScrape_self, ih]
    omega

/-! ## Sample concrete values used by the witnesses -/

/-- A sample page with a parsed article, a byline and one author meta tag. -/
def samplePage : PageModel :=
  ⟨"<html><body>Hello World</body></html>",
    some ⟨"T", some "A", "Hello World"⟩,
    [⟨some "author", none, some "A"⟩]⟩

/-- A sample page whose readability pass finds no article and with no metas. -/
def sampleEmptyPage : PageModel :=
  ⟨"<html></html>", none, []⟩

/-- An environment in which every effect succeeds. -/
def sampleEnvOk : Env :=
  ⟨"2025-01", samplePage, true, true, true, Except.ok "shot", Except.ok "print-html", true⟩

/-- An environment in which navigation fails after the page was opened. -/
def sampleEnvGotoFail : Env :=
  ⟨"2025-01", samplePage, true, true, false, Except.ok "shot", Except.ok "print-html", true⟩

/-- An environment in which only the stats-file write fails. -/
def sampleEnvNoSave : Env :=
  ⟨"2025-01", samplePage, true, true, true, Except.ok "shot", Except.ok "print-html", false⟩

/-! ## Claims -/

/-- C2: for every N at least 1, after exactly N recorded scrapes of the same
(url, mode) pair in the same month starting from the empty counter, the
counter maps the month/url/mode triple to N, with the intermediate month and
url levels created; and recording a scrape of a different url or a different
mode leaves the count of that triple unchanged in any counter state. -/
theorem claim_C2_counter_correctness (n : Nat) (hn : 1 ≤ n)
    (month url mode month' url' mode' : String)
    (hdiff : url' ≠ url ∨ mode' ≠ mode) :
    (∃ urls modes, alookup (logScrapeN n [] month url mode) month = some urls ∧
      alookup urls url = some modes ∧
      alookup modes mode = some n) ∧
    (∀ stats : ScrapeStats,
      statCount (logScrape stats month' url' mode') month url mode =
        statCount stats month url mode) := by
  constructor
  · obtain ⟨k, rfl⟩ : ∃ k, n = k + 1 := ⟨n - 1, by omega⟩
    show ∃ urls modes,
      alookup (logScrape (logScrapeN k [] month url mode) month url mode) month =
        some urls ∧ alookup urls url = some modes ∧ alookup modes mode = some (k + 1)
    refine ⟨_, _, alookup_logScrape_self _ _ _ _, alookup_bumpUrl_self _ _ _, ?_⟩
    rw [alookup_bumpMode_self]
    have hk : statCount (logScrapeN k [] month url mode) month url mode = k := by
      rw [statCount_logScrapeN]
      simp [statCount, alookup]
    unfold statCount at hk
    rw [hk]
  · exact fun stats => statCount_logScrape_frame stats month url mode month' url' mode' hdiff

/-- Witness for C2 at N = 2 with a scrape of a different url recorded on a
concrete counter state. -/
theorem claim_C2_witness :
    (∃ urls modes,
      alookup (logScrapeN 2 [] "2025-01" "https://a.example" "text") "2025-01" = some urls ∧
      alookup urls "https://a.example" = some modes ∧
      alookup modes "text" = some 2) ∧
    statCount (logScrape [] "2025-01" "https://b.example" "text")
        "2025-01" "https://a.example" "text" =
      statCount [] "2025-01" "https://a.example" "text" :=
  ⟨(claim_C2_counter_correctness 2 (by decide) "2025-01" "https://a.example" "text"
      "2025-01" "https://b.example" "text" (Or.inl (by decide))).1,
    (claim_C2_counter_correctness 2 (by decide) "2025-01" "https://a.example" "text"
      "2025-01" "https://b.example" "text" (Or.inl (by decide))).2 []⟩

/-- C3: whenever the readability pass produces an article, the article-mode
output is exactly the spec-described composition of sections in the fixed
order title, author (only if a byline is present), content, metadata, where
the metadata section lists only the meta tags recorded from the page, in the
priority order description, keywords, author, publication_date. -/
theorem claim_C3_article_section_order (p : PageModel) (a : Article)
    (h : p.article = some a) :
    specArticleSections p = some (extractEnhancedArticle p) := by
  cases hs : specArticleSections p with
  | none =>
    exfalso
    unfold specArticleSections at hs
    rw [h] at hs
    exact Option.noConfusion hs
  | some out =>
    rw [extractEnhancedArticle_eq_sections p a h, hs]
    rfl

/-- Witness for C3 on a concrete page with a byline and an author meta tag. -/
theorem claim_C3_witness :
    specArticleSections samplePage = some (extractEnhancedArticle samplePage) :=
  claim_C3_article_section_order samplePage ⟨"T", some "A", "Hello World"⟩ rfl

/-- C8: when the readability pass cannot parse the page into an article, the
text-mode extractor returns the empty string; the embedding is a total
function into String, so the empty string is an ordinary result, not a
raised error. -/
theorem claim_C8_no_article_empty (p : PageModel) (h : p.article = none) :
    extractReadableContent p = "" := by
  unfold extractReadableContent
  rw [h]

/-- Witness for C8 on a concrete page without a parseable article. -/
theorem claim_C8_witness : extractReadableContent sampleEmptyPage = "" :=
  claim_C8_no_article_empty sampleEmptyPage rfl

/-- C10: whenever the readability pass produces an article, the article-mode
output contains the literal Metadata: header, regardless of which (if any)
of the four recognized meta tags are present on the page. -/
theorem claim_C10_metadata_header_unconditional (p : PageModel) (a : Article)
    (h : p.article = some a) :
    ∃ pre post, extractEnhancedArticle p = pre ++ "\n\nMetadata:" ++ post := by
  refine ⟨"Title: " ++ a.title ++ "\n\n" ++
    (if truthyStr a.byline then "Author: " ++ a.byline.getD "" ++ "\n\n" else "") ++
    ("Content:\n" ++ extractReadableContent p),
    String.join (((relevantMetaTags.filter
      (fun t => truthyStr (alookup (buildMetadata p.metas) t)))).map
        (metaLine (buildMetadata p.metas))), ?_⟩
  rw [extractEnhancedArticle_eq_sections p a h]
  unfold specArticleSections
  rw [h]
  by_cases hb : truthyStr a.byline <;>
    simp [hb, String.append_assoc, append_merge_author, append_merge_content]

/-- Witness for C10 on a concrete page with an article but no meta tags at
all, where the header is still emitted. -/
theorem claim_C10_witness :
    ∃ pre post,
      extractEnhancedArticle ⟨"<html></html>", some ⟨"T", none, "body"⟩, []⟩ =
        pre ++ "\n\nMetadata:" ++ post :=
  claim_C10_metadata_header_unconditional _ ⟨"T", none, "body"⟩ rfl

/-- C5: every run of the handler in which a page was opened closes that page
before returning, on the success path and on every failure path, and no run
ever closes the shared browser process. -/
theorem claim_C5_page_always_closed (env : Env) (stats : ScrapeStats) (body : ScrapeBody)
    (h : (handleScrape env stats body).trace.pageOpened = true) :
    (handleScrape env stats body).trace.pageClosed = true ∧
    (handleScrape env stats body).trace.browserClosed = false := by
  unfold handleScrape at h ⊢
  split at h
  · simp_all
  · split at h
    · simp_all
    · split at h
      · simp_all
      · split at h
        · simp_all
        · split at h <;> [simp_all; split at h <;> simp_all]

/-- Witness for C5 on a failure path: navigation fails after the page was
opened, and the page is still closed while the browser is not. -/
theorem claim_C5_witness :
    (handleScrape sampleEnvGotoFail [] ⟨some "https://a.example", some "text"⟩).trace.pageClosed
        = true ∧
    (handleScrape sampleEnvGotoFail [] ⟨some "https://a.example", some "text"⟩).trace.browserClosed
        = false :=
  claim_C5_page_always_closed sampleEnvGotoFail [] ⟨some "https://a.example", some "text"⟩ rfl

/-- C6: a request whose body lacks the url field is answered 400 with the
specific validation message, whatever the mode is; the counter is unchanged
and the trace shows that no browser acquisition, page, navigation,
extraction or counter mutation happened. -/
theorem claim_C6_missing_url_400 (env : Env) (stats : ScrapeStats) (body : ScrapeBody)
    (h : body.url = none) :
    (handleScrape env stats body).reply = ⟨400, .error "URL is required"⟩ ∧
    (handleScrape env stats body).stats = stats ∧
    (handleScrape env stats body).trace =
      ⟨false, false, false, false, false, false, false, false⟩ := by
  unfold handleScrape
  simp [h, urlFalsy]

/-- Witness for C6 with a present mode field and a fully healthy
environment. -/
theorem claim_C6_witness :
    (handleScrape sampleEnvOk [] ⟨none, some "article"⟩).reply =
      ⟨400, .error "URL is required"⟩ ∧
    (handleScrape sampleEnvOk [] ⟨none, some "article"⟩).stats = [] ∧
    (handleScrape sampleEnvOk [] ⟨none, some "article"⟩).trace =
      ⟨false, false, false, false, false, false, false, false⟩ :=
  claim_C6_missing_url_400 sampleEnvOk [] ⟨none, some "article"⟩ rfl

/-- The mode strings the switch of the handler recognizes. -/
def knownModes : List String :=
  ["text", "article", "screenshot", "source", "print"]

/-- C7: a request whose mode is omitted or is none of the five known modes
is dispatched to the readable-content extractor, and its reply is the reply
an explicit text mode would have produced. -/
theorem claim_C7_unknown_mode_is_text (env : Env) (stats : ScrapeStats) (body : ScrapeBody)
    (h : ∀ s, body.mode = some s → s ∉ knownModes) :
    dispatch env body.mode = Except.ok (extractReadableContent env.page) ∧
    (handleScrape env stats body).reply =
      (handleScrape env stats ⟨body.url, some "text"⟩).reply := by
  have hd : dispatch env body.mode = Except.ok (extractReadableContent env.page) := by
    cases hm : body.mode with
    | none => rfl
    | some s =>
      have hs := h s hm
      simp [knownModes] at hs
      simp [dispatch, hs]
  have hd2 : dispatch env (some "text") = Except.ok (extractReadableContent env.page) := rfl
  refine ⟨hd, ?_⟩
  unfold handleScrape
  rw [hd, hd2]
  rcases body with ⟨u, m⟩
  by_cases h1 : urlFalsy u <;> by_cases h2 : env.browserOk <;>
    by_cases h3 : env.newPageOk <;> by_cases h4 : env.gotoOk <;>
      by_cases h5 : env.saveOk <;> simp [h1, h2, h3, h4, h5]

/-- Witness for C7 with an unrecognized mode string. -/
theorem claim_C7_witness :
    dispatch sampleEnvOk (some "bogus") =
      Except.ok (extractReadableContent sampleEnvOk.page) ∧
    (handleScrape sampleEnvOk [] ⟨some "https://a.example", some "bogus"⟩).reply =
      (handleScrape sampleEnvOk [] ⟨some "https://a.example", some "text"⟩).reply :=
  claim_C7_unknown_mode_is_text sampleEnvOk [] ⟨some "https://a.example", some "bogus"⟩
    (fun s hs => by injection hs with h2; subst h2; decide)

/-- C9: when only the stats-file write fails after a successful extraction,
the handler replies with the generic 500 error rather than the extracted
content, yet the in-memory counter keeps the increment for the
(current-month, url, mode) triple. -/
theorem claim_C9_save_failure_keeps_increment (env : Env) (stats : ScrapeStats)
    (body : ScrapeBody) (result : String)
    (hurl : urlFalsy body.url = false)
    (hb : env.browserOk = true) (hn : env.newPageOk = true) (hg : env.gotoOk = true)
    (hd : dispatch env body.mode = Except.ok result)
    (hs : env.saveOk = false) :
    (handleScrape env stats body).reply = scrapeError ∧
    (handleScrape env stats body).stats =
      logScrape stats env.month (body.url.getD "") (modeKey body.mode) ∧
    statCount (handleScrape env stats body).stats env.month (body.url.getD "")
        (modeKey body.mode) =
      statCount stats env.month (body.url.getD "") (modeKey body.mode) + 1 := by
  unfold handleScrape
  simp [hurl, hb, hn, hg, hd, hs, statCount_logScrape_self]

/-- Witness for C9 on a concrete request whose extraction succeeded but
whose stats write fails. -/
theorem claim_C9_witness :
    (handleScrape sampleEnvNoSave [] ⟨some "https://a.example", some "text"⟩).reply =
      scrapeError ∧
    (handleScrape sampleEnvNoSave [] ⟨some "https://a.example", some "text"⟩).stats =
      logScrape [] sampleEnvNoSave.month "https://a.example" "text" ∧
    statCount (handleScrape sampleEnvNoSave [] ⟨some "https://a.example", some "text"⟩).stats
        sampleEnvNoSave.month "https://a.example" "text" =
      statCount [] sampleEnvNoSave.month "https://a.example" "text" + 1 :=
  claim_C9_save_failure_keeps_increment sampleEnvNoSave []
    ⟨some "https://a.example", some "text"⟩ (extractReadableContent samplePage)
    rfl rfl rfl rfl rfl rfl

/-- C1: the launch de-duplication claim fails on the source.  The await of
the chromium-path exec sits between the null check of browserPromise and
its assignment, so two callers that both enter getBrowser while no session
exists both pass the null check, and each starts its own launch when it
resumes: from the initial state with two idle callers and no session, a
valid interleaving reaches a state with two launch attempts pending at the
same time, two launch attempts started in total, and the two callers
awaiting different promises. -/
theorem claim_C1_double_launch_interleaving :
    SessionReach sessionInit2 sessionTwoLaunches ∧
    pendingLaunches sessionTwoLaunches = 2 ∧
    totalLaunches sessionTwoLaunches = 2 ∧
    sessionTwoLaunches.callers = [.awaiting 0, .awaiting 1] := by
  refine ⟨?_, rfl, rfl, rfl⟩
  exact SessionReach.tail _ sessionOneLaunch _ (.execDone 1)
    (SessionReach.tail _ sessionBothExec _ (.execDone 0)
      (SessionReach.tail _ ⟨none, [], [.execWait, .idle]⟩ _ (.invoke 1)
        (SessionReach.tail _ sessionInit2 _ (.invoke 0)
          (SessionReach.refl _)
          (SessionStep.invokeFresh _ 0 rfl rfl))
        (SessionStep.invokeFresh _ 1 rfl rfl))
      (SessionStep.execDone _ 0 rfl))
    (SessionStep.execDone _ 1 rfl)

/-- C4: when a launch attempt fails, its catch handler clears the cached
browserPromise and marks the promise rejected; afterwards every caller that
was awaiting that attempt can take the step that resumes it with the
propagated error, and any caller entering getBrowser next takes the
fresh-launch path, whose resumption creates a brand-new pending launch. -/
theorem claim_C4_launch_failure_resets (s s' : SessionState) (p : Nat)
    (h : SessionStep s (.launchFail p) s') :
    s'.browserPromise = none ∧
    s'.promises[p]? = some .rejected ∧
    (∀ c, s'.callers[c]? = some (.awaiting p) →
      SessionStep s' (.observe c)
        ⟨s'.browserPromise, s'.promises, s'.callers.set c .gotError⟩) ∧
    (∀ c, s'.callers[c]? = some .idle →
      SessionStep s' (.invoke c)
        ⟨s'.browserPromise, s'.promises, s'.callers.set c .execWait⟩ ∧
      SessionStep ⟨s'.browserPromise, s'.promises, s'.callers.set c .execWait⟩
        (.execDone c)
        ⟨some s'.promises.length, s'.promises ++ [.pending],
          (s'.callers.set c .execWait).set c (.awaiting s'.promises.length)⟩) := by
  cases h with
  | launchFail q hp =>
    have hplen : p < s.promises.length := by
      rcases List.getElem?_eq_some_iff.mp hp with ⟨hlt, -⟩
      exact hlt
    have hrej : (s.promises.set p .rejected)[p]? = some .rejected := by
      simp [List.getElem?_set_self hplen]
    refine ⟨rfl, hrej, ?_, ?_⟩
    · intro c hc
      exact SessionStep.observeErr _ c p hc hrej
    · intro c hc
      have hclen : c < s.callers.length := by
        rcases List.getElem?_eq_some_iff.mp hc with ⟨hlt, -⟩
        exact hlt
      refine ⟨SessionStep.invokeFresh _ c hc rfl, ?_⟩
      have hcw : ((⟨none, s.promises.set p .rejected,
          s.callers.set c .execWait⟩ : SessionState).callers)[c]? = some .execWait := by
        simp [List.getElem?_set_self hclen]
      exact SessionStep.execDone _ c hcw

/-- Witness for C4: a concrete one-caller state whose single pending launch
fails; the cache is cleared and the promise is rejected. -/
theorem claim_C4_witness :
    ((⟨none, [.rejected], [.idle]⟩ : SessionState).browserPromise = none) ∧
    ((⟨none, [.rejected], [.idle]⟩ : SessionState).promises[0]? =
      some PromiseStatus.rejected) :=
  ⟨(claim_C4_launch_failure_resets ⟨some 0, [.pending], [.idle]⟩
      ⟨none, [.rejected], [.idle]⟩ 0 (SessionStep.launchFail _ 0 rfl)).1,
    (claim_C4_launch_failure_resets ⟨some 0, [.pending], [.idle]⟩
      ⟨none, [.rejected], [.idle]⟩ 0 (SessionStep.launchFail _ 0 rfl)).2.1⟩

end WebScraper
